import Mathlib

set_option linter.unusedVariables false
set_option maxRecDepth 100000

/-!
Shallow embedding of `src/lib/llm.js` (the `generateContent` provider
dispatcher) and verification of its specified properties.

The JavaScript function reads configuration from `process.env`, then tries
up to three HTTP providers in a fixed order (Python backend, local LLM,
RapidAPI), falling back to a mock placeholder or a diagnostic string.
We model JavaScript values with `JsVal`, the environment with `Env`, and
the outcome of each possible `fetch` with an `Oracle`.  `generateContent`
returns the resolved value together with the ordered list of HTTP calls
it issued.
-/

namespace Llm

/-- JavaScript values, as far as this program can observe them:
`undefined`, `null`, booleans, numbers (kept as their literal text, no
arithmetic is done on them), strings, arrays and objects. -/
inductive JsVal where
  | undefined : JsVal
  | null : JsVal
  | bool (b : Bool) : JsVal
  | num (lit : String) : JsVal
  | str (s : String) : JsVal
  | arr (elems : List JsVal) : JsVal
  | obj (fields : List (String × JsVal)) : JsVal
  deriving Repr

/-- Property access `v.k`.  In JavaScript this throws a `TypeError` on
`undefined` and `null`, looks the key up on objects (yielding `undefined`
when absent), and yields `undefined` on the remaining primitives and on
arrays (no array in this program is accessed by a named property that it
has). -/
def JsVal.getField : JsVal → String → Except String JsVal
  | .undefined, k => .error ("TypeError: Cannot read properties of undefined (reading " ++ k ++ ")")
  | .null, k => .error ("TypeError: Cannot read properties of null (reading " ++ k ++ ")")
  | .obj fields, k =>
      match fields.lookup k with
      | some v => .ok v
      | none => .ok .undefined
  | _, _ => .ok .undefined

/-- Index access `v[i]`: throws on `undefined`/`null`, yields the element
(or `undefined` past the end) on arrays, looks up the stringified index on
objects, `undefined` otherwise. -/
def JsVal.getIndex : JsVal → Nat → Except String JsVal
  | .undefined, i => .error ("TypeError: Cannot read properties of undefined (reading " ++ toString i ++ ")")
  | .null, i => .error ("TypeError: Cannot read properties of null (reading " ++ toString i ++ ")")
  | .arr elems, i =>
      match elems.get? i with
      | some v => .ok v
      | none => .ok .undefined
  | .obj fields, i =>
      match fields.lookup (toString i) with
      | some v => .ok v
      | none => .ok .undefined
  | _, _ => .ok .undefined

/-- The value of `v.k` when the access does not throw (i.e. `v` is neither
`undefined` nor `null`). -/
def JsVal.getFieldD (v : JsVal) (k : String) : JsVal :=
  match v.getField k with
  | .ok w => w
  | .error _ => .undefined

/-- The chained access `data.choices[0].message.content` used by both the
local-LLM and the RapidAPI success paths (src/lib/llm.js lines 67 and 105). -/
def chatContent (data : JsVal) : Except String JsVal := do
  let choices ← data.getField "choices"
  let first ← choices.getIndex 0
  let message ← first.getField "message"
  message.getField "content"

/-- The five environment variables read by `generateContent`
(src/lib/llm.js lines 6-10).  `none` models an unset variable. -/
structure Env where
  LOCAL_LLM_URL : Option String
  USE_LOCAL_LLM : Option String
  USE_PYTHON_BACKEND : Option String
  PYTHON_SERVER_URL : Option String
  RAPIDAPI_KEY : Option String
  deriving Repr, DecidableEq

/-- `process.env.LOCAL_LLM_URL || 'http://localhost:11434/v1/chat/completions'`
(line 6; an empty string is falsy in JavaScript, so it also selects the default). -/
def localUrl (e : Env) : String :=
  match e.LOCAL_LLM_URL with
  | some s => if s = "" then "http://localhost:11434/v1/chat/completions" else s
  | none => "http://localhost:11434/v1/chat/completions"

/-- `process.env.USE_LOCAL_LLM === 'true'` (line 7). -/
def useLocal (e : Env) : Bool := e.USE_LOCAL_LLM = some "true"

/-- `process.env.USE_PYTHON_BACKEND === 'true'` (line 8). -/
def usePython (e : Env) : Bool := e.USE_PYTHON_BACKEND = some "true"

/-- `process.env.PYTHON_SERVER_URL || 'http://localhost:5001/generate'` (line 9). -/
def pythonUrl (e : Env) : String :=
  match e.PYTHON_SERVER_URL with
  | some s => if s = "" then "http://localhost:5001/generate" else s
  | none => "http://localhost:5001/generate"

/-- `process.env.RAPIDAPI_KEY` (line 10). -/
def rapidApiKey (e : Env) : Option String := e.RAPIDAPI_KEY

/-- JavaScript truthiness of `rapidApiKey` as used in the guards
`if (rapidApiKey)`, `!rapidApiKey`: an unset variable and the empty string
are both falsy. -/
def hasRapidKey (e : Env) : Bool :=
  match e.RAPIDAPI_KEY with
  | some s => !(s = "")
  | none => false

/-- `const targetModel = (useLocal || usePython) ? "meta-llama/Llama-4-Scout-17B-16E-Instruct" : model`
(line 13). -/
def targetModel (e : Env) (model : String) : String :=
  if useLocal e || usePython e then "meta-llama/Llama-4-Scout-17B-16E-Instruct" else model

/-- An HTTP response as this program observes it: the `ok` flag, the
`statusText`, the raw body text (read by the RapidAPI error path), and the
result of `response.json()` (`Except.error` when the body is not
parseable JSON). -/
structure HttpResponse where
  ok : Bool
  statusText : String
  bodyText : String
  json : Except String JsVal
  deriving Repr

/-- Outcome of one `fetch`: either the promise rejects (network failure)
with an error message, or a response arrives. -/
inductive FetchOutcome where
  | fail (msg : String) : FetchOutcome
  | resp (r : HttpResponse) : FetchOutcome
  deriving Repr

/-- The outcome each of the three possible HTTP calls would have if issued. -/
structure Oracle where
  python : FetchOutcome
  localLLM : FetchOutcome
  rapid : FetchOutcome
  deriving Repr

/-- Which provider a call went to. -/
inductive CallTag where
  | python : CallTag
  | localLLM : CallTag
  | rapid : CallTag
  deriving Repr, DecidableEq

/-- The JSON request body of a call: the python backend sends
`{prompt, system_prompt}`; the two chat-style providers send
`{model, messages, temperature}` (plus `max_tokens` for RapidAPI).
Messages are (role, content) pairs; numeric literals are kept as text. -/
inductive RequestBody where
  | pythonBody (prompt system_prompt : String) : RequestBody
  | chatBody (model : String) (messages : List (String × String))
      (temperature : String) (max_tokens : Option String) : RequestBody
  deriving Repr, DecidableEq

/-- One issued HTTP call: provider, URL, headers and JSON body. -/
structure Call where
  provider : CallTag
  url : String
  headers : List (String × String)
  body : RequestBody
  deriving Repr, DecidableEq

/-- The POST to the python backend (lines 19-26). -/
def pythonCall (e : Env) (systemPrompt userMessage : String) : Call :=
  { provider := .python
    url := pythonUrl e
    headers := [("Content-Type", "application/json")]
    body := .pythonBody userMessage systemPrompt }

/-- The POST to the local LLM (lines 47-60); the `model` field is
`targetModel`, which is the fixed constant whenever `useLocal` holds. -/
def localCall (e : Env) (model systemPrompt userMessage : String) : Call :=
  { provider := .localLLM
    url := localUrl e
    headers := [("Content-Type", "application/json")]
    body := .chatBody (targetModel e model)
      [("system", systemPrompt), ("user", userMessage)] "0.7" none }

/-- The POST to the fixed RapidAPI endpoint (lines 82-98); the model is
hardcoded to `"gpt-4o"`. -/
def rapidCall (e : Env) (systemPrompt userMessage : String) : Call :=
  { provider := .rapid
    url := "https://cheapest-gpt-4-turbo-gpt-4-vision-chatgpt-openai-ai-api.p.rapidapi.com/v1/chat/completions"
    headers := [("Content-Type", "application/json"),
      ("x-rapidapi-host", "cheapest-gpt-4-turbo-gpt-4-vision-chatgpt-openai-ai-api.p.rapidapi.com"),
      ("x-rapidapi-key", (rapidApiKey e).getD "")]
    body := .chatBody "gpt-4o"
      [("system", systemPrompt), ("user", userMessage)] "0.7" (some "1000") }

/-- The python-backend `try` block (lines 17-33): a rejected fetch, a
non-2xx status, an unparseable body, or a throwing `data.text` access all
end in `Except.error`; otherwise the block returns `data.text`. -/
def pythonTry (o : FetchOutcome) : Except String JsVal :=
  match o with
  | .fail msg => .error msg
  | .resp r =>
      if !r.ok then .error ("Python Server Error: " ++ r.statusText)
      else
        match r.json with
        | .error msg => .error msg
        | .ok data => data.getField "text"

/-- The local-LLM `try` block (lines 45-67), returning
`data.choices[0].message.content` on success. -/
def localTry (o : FetchOutcome) : Except String JsVal :=
  match o with
  | .fail msg => .error msg
  | .resp r =>
      if !r.ok then .error ("Local LLM Error: " ++ r.statusText)
      else
        match r.json with
        | .error msg => .error msg
        | .ok data => chatContent data

/-- The RapidAPI `try` block (lines 81-105); on a non-2xx status the error
message embeds the response body text. -/
def rapidTry (o : FetchOutcome) : Except String JsVal :=
  match o with
  | .fail msg => .error msg
  | .resp r =>
      if !r.ok then .error ("RapidAPI Error: " ++ r.bodyText)
      else
        match r.json with
        | .error msg => .error msg
        | .ok data => chatContent data

/-- `mockResponse` (lines 139-143): after a fixed artificial delay it
resolves to a constant placeholder string; the `model` argument is unused. -/
def mockResponse (model : String) : String :=
  "**[Mock Generated Content]**..."

/-- The terminal python-backend error string (line 38). -/
def pythonBackendError (msg : String) : String :=
  "**Python Backend Error**: " ++ msg ++
    "\n\n*Check Vercel Environment Variables and Render Server logs.*"

/-- The total-failure diagnostic template (lines 115-136), interpolating
`localUrl`, `targetModel`, `useLocal`, `usePython` and `!!rapidApiKey`. -/
def configRequired (e : Env) (tm : String) : String :=
  "# Configuration Required\n\nI cannot generate real output because no AI provider is configured or reachable.\n\n**1. Local LLM (Recommended)**\n- Ensure your local server (e.g., Ollama) is running at `"
    ++ localUrl e
    ++ "`.\n- Run: `ollama run "
    ++ tm
    ++ "`\n- Restart this app: `npm run dev`\n\n**2. RapidAPI**\n- Add `RAPIDAPI_KEY` to your `.env.local` file.\n\n**3. Python Backend (Hugging Face)**\n- Ensure `HF_TOKEN` and `USE_PYTHON_BACKEND=true` are in `.env.local`.\n- Ensure the python server is running: `python3 server.py`\n\n**4. Debug Info**\n- Local URL: "
    ++ localUrl e
    ++ "\n- Use Local: "
    ++ toString (useLocal e)
    ++ "\n- Use Python: "
    ++ toString (usePython e)
    ++ "\n- Rapid Key Found: "
    ++ toString (hasRapidKey e)
    ++ "\n"

/-- Stage 2, the RapidAPI attempt (lines 80-110) followed by the
total-failure diagnostic (lines 112-136): a failed attempt, like an absent
key, falls through to `configRequired`. -/
def rapidStage (e : Env) (o : Oracle) (model systemPrompt userMessage : String) :
    JsVal × List Call :=
  if hasRapidKey e then
    match rapidTry o.rapid with
    | .ok v => (v, [rapidCall e systemPrompt userMessage])
    | .error _ =>
        (.str (configRequired e (targetModel e model)), [rapidCall e systemPrompt userMessage])
  else
    (.str (configRequired e (targetModel e model)), [])

/-- Stage 1, the local-LLM attempt (lines 44-77): on failure, if there is
neither a RapidAPI key nor the python flag, return the mock placeholder
(terminal); otherwise fall through to the RapidAPI stage. -/
def localStage (e : Env) (o : Oracle) (model systemPrompt userMessage : String) :
    JsVal × List Call :=
  if useLocal e then
    match localTry o.localLLM with
    | .ok v => (v, [localCall e model systemPrompt userMessage])
    | .error _ =>
        if !hasRapidKey e && !usePython e then
          (.str (mockResponse (targetModel e model)), [localCall e model systemPrompt userMessage])
        else
          let rest := rapidStage e o model systemPrompt userMessage
          (rest.1, localCall e model systemPrompt userMessage :: rest.2)
  else
    rapidStage e o model systemPrompt userMessage

/-- `generateContent(model, systemPrompt, userMessage)` (lines 4-137):
stage 0 is the python-backend attempt; on failure, if neither the local
flag nor a RapidAPI key is present, return the formatted python-backend
error (terminal); otherwise fall through.  The second component is the
ordered list of HTTP calls issued. -/
def generateContent (e : Env) (o : Oracle) (model systemPrompt userMessage : String) :
    JsVal × List Call :=
  if usePython e then
    match pythonTry o.python with
    | .ok v => (v, [pythonCall e systemPrompt userMessage])
    | .error msg =>
        if !useLocal e && !hasRapidKey e then
          (.str (pythonBackendError msg), [pythonCall e systemPrompt userMessage])
        else
          let rest := localStage e o model systemPrompt userMessage
          (rest.1, pythonCall e systemPrompt userMessage :: rest.2)
  else
    localStage e o model systemPrompt userMessage

/-- The result value is a non-empty string. -/
def JsVal.isNonEmptyString : JsVal → Bool
  | .str s => !(s = "")
  | _ => false

/-- `s` starts with the prefix `p`. -/
def startsWithStr (s p : String) : Prop := ∃ t, s = p ++ t

/-- `s` starts with the character `c`. -/
def strHead (s : String) (c : Char) : Prop := ∃ l, s.data = c :: l

/-- A 2xx response whose body parses to `v`. -/
def okJson (v : JsVal) : HttpResponse :=
  { ok := true, statusText := "OK", bodyText := "", json := .ok v }

/-- A chat-style success body `{choices:[{message:{content: s}}]}`. -/
def chatOk (s : String) : JsVal :=
  .obj [("choices", .arr [.obj [("message", .obj [("content", .str s)])]])]

/-- Environment with only `USE_PYTHON_BACKEND=true`. -/
def envPyOnly : Env := ⟨none, none, some "true", none, none⟩

/-- Environment with `USE_PYTHON_BACKEND=true` and `USE_LOCAL_LLM=true`. -/
def envPyLocal : Env := ⟨none, some "true", some "true", none, none⟩

/-- Environment with only `USE_LOCAL_LLM=true`. -/
def envLocalOnly : Env := ⟨none, some "true", none, none, none⟩

/-- Environment with nothing configured. -/
def envNone : Env := ⟨none, none, none, none, none⟩

/-- Oracle where every fetch rejects. -/
def oAllFail : Oracle := ⟨.fail "boom", .fail "boom", .fail "boom"⟩

/-- Oracle: python 2xx with body `{text: "py-text"}`, others reject. -/
def oPyObj : Oracle :=
  ⟨.resp (okJson (.obj [("text", .str "py-text")])), .fail "x", .fail "x"⟩

/-- Oracle: python 2xx with body `{}`, others reject. -/
def oPyEmpty : Oracle := ⟨.resp (okJson (.obj [])), .fail "x", .fail "x"⟩

/-- Oracle: python 2xx whose body parses to JSON `null`; local LLM 2xx with a
well-formed chat body. -/
def oPyNullLocalOk : Oracle :=
  ⟨.resp (okJson .null), .resp (okJson (chatOk "local-wins")), .fail "x"⟩

/-- Oracle: local LLM 2xx with a well-formed chat body, others reject. -/
def oLocalOk : Oracle := ⟨.fail "x", .resp (okJson (chatOk "local-text")), .fail "x"⟩

end Llm

namespace Llm

lemma strHead_append {a : String} (b : String) {c : Char} (h : strHead a c) :
    strHead (a ++ b) c := by
  obtain ⟨l, hl⟩ := h
  exact ⟨l ++ b.data, by simp [String.data_append, hl]⟩

lemma strHead_unique {s : String} {c d : Char} (hc : strHead s c) (hd : strHead s d) :
    c = d := by
  obtain ⟨l1, h1⟩ := hc
  obtain ⟨l2, h2⟩ := hd
  have h3 : c :: l1 = d :: l2 := h1.symm.trans h2
  exact (List.cons.injEq _ _ _ _ ▸ h3).1

lemma ne_of_strHead {a b : String} {c d : Char} (ha : strHead a c) (hb : strHead b d)
    (h : c ≠ d) : a ≠ b := by
  intro he
  exact h (strHead_unique ha (he ▸ hb))

lemma ne_empty_of_strHead {s : String} {c : Char} (h : strHead s c) : s ≠ "" := by
  obtain ⟨l, hl⟩ := h
  intro he
  rw [he] at hl
  exact List.noConfusion hl

lemma strHead_configRequired (e : Env) (tm : String) :
    strHead (configRequired e tm) '#' := by
  unfold configRequired
  repeat apply strHead_append
  exact ⟨(("# Configuration Required\n\nI cannot generate real output because no AI provider is configured or reachable.\n\n**1. Local LLM (Recommended)**\n- Ensure your local server (e.g., Ollama) is running at `" : String).drop 1).data, by decide⟩

lemma strHead_pythonBackendError (msg : String) :
    strHead (pythonBackendError msg) '*' := by
  unfold pythonBackendError
  repeat apply strHead_append
  exact ⟨(("**Python Backend Error**: " : String).drop 1).data, by decide⟩

lemma strHead_mockResponse (m : String) : strHead (mockResponse m) '*' := by
  unfold mockResponse
  exact ⟨(("**[Mock Generated Content]**..." : String).drop 1).data, by decide⟩

lemma configRequired_ne_empty (e : Env) (tm : String) : configRequired e tm ≠ "" :=
  ne_empty_of_strHead (strHead_configRequired e tm)

lemma pythonBackendError_ne_empty (msg : String) : pythonBackendError msg ≠ "" :=
  ne_empty_of_strHead (strHead_pythonBackendError msg)

lemma mockResponse_ne_empty (m : String) : mockResponse m ≠ "" :=
  ne_empty_of_strHead (strHead_mockResponse m)

lemma getField_ok (body : JsVal) (k : String) (hn : body ≠ .null) (hu : body ≠ .undefined) :
    body.getField k = .ok (body.getFieldD k) := by
  cases body with
  | undefined => exact absurd rfl hu
  | null => exact absurd rfl hn
  | obj fs =>
      unfold JsVal.getFieldD
      cases h : fs.lookup k <;> simp [JsVal.getField, h]
  | bool b => rfl
  | num n => rfl
  | str s => rfl
  | arr xs => rfl

lemma generateContent_python_ok (e : Env) (o : Oracle) (m sp um : String) (v : JsVal)
    (hp : usePython e = true) (hv : pythonTry o.python = .ok v) :
    generateContent e o m sp um = (v, [pythonCall e sp um]) := by
  unfold generateContent
  simp [hp, hv]

/-- C4: if `USE_PYTHON_BACKEND` is `'true'`, the python call fails,
`USE_LOCAL_LLM` is not `'true'` and no RapidAPI key is present, then
`generateContent` returns terminally a string starting with
`**Python Backend Error**`, and the python call is the only call issued. -/
theorem C4_python_terminal_error (e : Env) (o : Oracle) (m sp um msg : String)
    (hp : usePython e = true) (he : pythonTry o.python = .error msg)
    (hl : useLocal e = false) (hk : hasRapidKey e = false) :
    (generateContent e o m sp um).1 = .str (pythonBackendError msg) ∧
    startsWithStr (pythonBackendError msg) "**Python Backend Error**" ∧
    (generateContent e o m sp um).2 = [pythonCall e sp um] := by
  have hg : generateContent e o m sp um
      = (.str (pythonBackendError msg), [pythonCall e sp um]) := by
    unfold generateContent
    simp [hp, he, hl, hk]
  refine ⟨by rw [hg], ?_, by rw [hg]⟩
  refine ⟨": " ++ (msg ++ "\n\n*Check Vercel Environment Variables and Render Server logs.*"), ?_⟩
  unfold pythonBackendError
  rw [show ("**Python Backend Error**: " : String) = "**Python Backend Error**" ++ ": " from rfl]
  rw [String.append_assoc, String.append_assoc]

/-- Witness for C4: concrete run with only the python backend enabled and a
rejected fetch. -/
theorem C4_python_terminal_error_witness :
    (generateContent envPyOnly oAllFail "m" "sp" "um").1 = .str (pythonBackendError "boom") ∧
    startsWithStr (pythonBackendError "boom") "**Python Backend Error**" ∧
    (generateContent envPyOnly oAllFail "m" "sp" "um").2 = [pythonCall envPyOnly "sp" "um"] :=
  C4_python_terminal_error envPyOnly oAllFail "m" "sp" "um" "boom" rfl rfl rfl rfl

/-- C5: if `USE_LOCAL_LLM` is `'true'`, the local call fails, no RapidAPI key
is present and `USE_PYTHON_BACKEND` is not `'true'`, then `generateContent`
terminally returns the mock placeholder produced by `mockResponse`, after
issuing only the local call. -/
theorem C5_local_failure_mock (e : Env) (o : Oracle) (m sp um msg : String)
    (hl : useLocal e = true) (he : localTry o.localLLM = .error msg)
    (hk : hasRapidKey e = false) (hp : usePython e = false) :
    (generateContent e o m sp um).1 = .str (mockResponse (targetModel e m)) ∧
    (generateContent e o m sp um).2 = [localCall e m sp um] := by
  have hg : generateContent e o m sp um
      = (.str (mockResponse (targetModel e m)), [localCall e m sp um]) := by
    unfold generateContent localStage
    simp [hp, hl, he, hk]
  exact ⟨by rw [hg], by rw [hg]⟩

/-- Witness for C5: concrete run with only the local LLM enabled and a
rejected fetch. -/
theorem C5_local_failure_mock_witness :
    (generateContent envLocalOnly oAllFail "m" "sp" "um").1
      = .str (mockResponse (targetModel envLocalOnly "m")) ∧
    (generateContent envLocalOnly oAllFail "m" "sp" "um").2
      = [localCall envLocalOnly "m" "sp" "um"] :=
  C5_local_failure_mock envLocalOnly oAllFail "m" "sp" "um" "boom" rfl rfl rfl rfl

/-- C6: if no provider is applicable (both flags off, no key), the result is
the diagnostic template interpolated with the current `localUrl`, `useLocal`,
`usePython` and `!!rapidApiKey` values (see `configRequired`), and no HTTP
call is issued; `targetModel` degenerates to the caller's `model`. -/
theorem C6_nothing_configured_diagnostic (e : Env) (o : Oracle) (m sp um : String)
    (hp : usePython e = false) (hl : useLocal e = false) (hk : hasRapidKey e = false) :
    (generateContent e o m sp um).1 = .str (configRequired e m) ∧
    (generateContent e o m sp um).2 = [] := by
  have ht : targetModel e m = m := by simp [targetModel, hl, hp]
  have hg : generateContent e o m sp um = (.str (configRequired e m), []) := by
    unfold generateContent localStage rapidStage
    simp [hp, hl, hk, ht]
  exact ⟨by rw [hg], by rw [hg]⟩

/-- Witness for C6: concrete run with nothing configured. -/
theorem C6_nothing_configured_diagnostic_witness :
    (generateContent envNone oAllFail "m" "sp" "um").1 = .str (configRequired envNone "m") ∧
    (generateContent envNone oAllFail "m" "sp" "um").2 = [] :=
  C6_nothing_configured_diagnostic envNone oAllFail "m" "sp" "um" rfl rfl rfl

/-- C9: with both flags `'true'`, both calls failing and no RapidAPI key,
`generateContent` returns the configuration diagnostic — not the mock
placeholder and not the `**Python Backend Error**` string — after issuing
exactly the python call then the local call. -/
theorem C9_double_failure_diagnostic (e : Env) (o : Oracle) (m sp um pmsg lmsg : String)
    (hp : usePython e = true) (hl : useLocal e = true) (hk : hasRapidKey e = false)
    (hpe : pythonTry o.python = .error pmsg) (hle : localTry o.localLLM = .error lmsg) :
    (generateContent e o m sp um).1 = .str (configRequired e (targetModel e m)) ∧
    (generateContent e o m sp um).2 = [pythonCall e sp um, localCall e m sp um] ∧
    configRequired e (targetModel e m) ≠ mockResponse (targetModel e m) ∧
    ¬ startsWithStr (configRequired e (targetModel e m)) "**Python Backend Error**" := by
  have hg : generateContent e o m sp um
      = (.str (configRequired e (targetModel e m)),
          [pythonCall e sp um, localCall e m sp um]) := by
    unfold generateContent localStage rapidStage
    simp [hp, hl, hk, hpe, hle]
  refine ⟨by rw [hg], by rw [hg], ?_, ?_⟩
  · exact ne_of_strHead (strHead_configRequired e _) (strHead_mockResponse _) (by decide)
  · rintro ⟨t, ht⟩
    have h1 : strHead (configRequired e (targetModel e m)) '#' := strHead_configRequired e _
    have h2 : strHead ("**Python Backend Error**" ++ t) '*' :=
      strHead_append t ⟨(("**Python Backend Error**" : String).drop 1).data, by decide⟩
    rw [← ht] at h2
    exact absurd (strHead_unique h1 h2) (by decide)

/-- Witness for C9: concrete run with both flags set, both fetches rejected,
no key. -/
theorem C9_double_failure_diagnostic_witness :
    (generateContent envPyLocal oAllFail "m" "sp" "um").1
      = .str (configRequired envPyLocal (targetModel envPyLocal "m")) ∧
    (generateContent envPyLocal oAllFail "m" "sp" "um").2
      = [pythonCall envPyLocal "sp" "um", localCall envPyLocal "m" "sp" "um"] ∧
    configRequired envPyLocal (targetModel envPyLocal "m")
      ≠ mockResponse (targetModel envPyLocal "m") ∧
    ¬ startsWithStr (configRequired envPyLocal (targetModel envPyLocal "m"))
      "**Python Backend Error**" :=
  C9_double_failure_diagnostic envPyLocal oAllFail "m" "sp" "um" "boom" "boom"
    rfl rfl rfl rfl rfl

/-- Counterexample to C2 as stated: the python POST succeeds (2xx, and the
body parses as JSON, namely to `null`), yet the local provider is contacted
afterwards and its value is what is returned — because `data.text` throws on
`null` inside the `try` and the failure is swallowed. -/
theorem C2_counterexample :
    usePython envPyLocal = true ∧
    oPyNullLocalOk.python = .resp (okJson .null) ∧
    (okJson JsVal.null).ok = true ∧
    (okJson JsVal.null).json = .ok .null ∧
    (generateContent envPyLocal oPyNullLocalOk "m" "sp" "um").2
      = [pythonCall envPyLocal "sp" "um", localCall envPyLocal "m" "sp" "um"] ∧
    (generateContent envPyLocal oPyNullLocalOk "m" "sp" "um").1 = .str "local-wins" :=
  ⟨rfl, rfl, rfl, rfl, rfl, rfl⟩

/-- C2 (amended): if `USE_PYTHON_BACKEND` is `'true'` and the python POST
succeeds with parseable JSON whose parsed value is not JSON `null` (nor the
unreachable `undefined`), `generateContent` returns exactly the body's
`text` field (`undefined` when absent) and the python call is the only call
issued. -/
theorem C2_python_success (e : Env) (o : Oracle) (m sp um : String)
    (r : HttpResponse) (body : JsVal)
    (hp : usePython e = true) (ho : o.python = .resp r) (hok : r.ok = true)
    (hj : r.json = .ok body) (hn : body ≠ .null) (hu : body ≠ .undefined) :
    (generateContent e o m sp um).1 = body.getFieldD "text" ∧
    (generateContent e o m sp um).2 = [pythonCall e sp um] := by
  have hpt : pythonTry o.python = .ok (body.getFieldD "text") := by
    rw [ho]
    unfold pythonTry
    simp [hok, hj, getField_ok body "text" hn hu]
  have hg := generateContent_python_ok e o m sp um _ hp hpt
  exact ⟨by rw [hg], by rw [hg]⟩

/-- Witness for C2 (amended): concrete python success with body
`{text: "py-text"}`. -/
theorem C2_python_success_witness :
    (generateContent envPyOnly oPyObj "m" "sp" "um").1
      = (JsVal.obj [("text", .str "py-text")]).getFieldD "text" ∧
    (generateContent envPyOnly oPyObj "m" "sp" "um").2 = [pythonCall envPyOnly "sp" "um"] :=
  C2_python_success envPyOnly oPyObj "m" "sp" "um"
    (okJson (.obj [("text", .str "py-text")])) (.obj [("text", .str "py-text")])
    rfl rfl rfl rfl (fun h => JsVal.noConfusion h) (fun h => JsVal.noConfusion h)

/-- C8: a successful python response is returned without validation: when the
object body has no `text` field the resolved value is `undefined` (not a
string), and when `text` is the empty string the result is the empty
string. -/
theorem C8_python_no_validation (e : Env) (o : Oracle) (m sp um : String)
    (r : HttpResponse) (fs : List (String × JsVal))
    (hp : usePython e = true) (ho : o.python = .resp r) (hok : r.ok = true)
    (hj : r.json = .ok (.obj fs)) :
    (fs.lookup "text" = none → (generateContent e o m sp um).1 = .undefined) ∧
    (fs.lookup "text" = some (.str "") → (generateContent e o m sp um).1 = .str "") := by
  have hpt : pythonTry o.python = JsVal.getField (.obj fs) "text" := by
    rw [ho]
    unfold pythonTry
    simp [hok, hj]
  constructor
  · intro hnone
    have hv : pythonTry o.python = .ok .undefined := by
      rw [hpt]; simp [JsVal.getField, hnone]
    rw [generateContent_python_ok e o m sp um _ hp hv]
  · intro hsome
    have hv : pythonTry o.python = .ok (.str "") := by
      rw [hpt]; simp [JsVal.getField, hsome]
    rw [generateContent_python_ok e o m sp um _ hp hv]

/-- Witness for C8: concrete python success with body `{}` resolves to
`undefined`. -/
theorem C8_python_no_validation_witness :
    (([] : List (String × JsVal)).lookup "text" = none →
      (generateContent envPyOnly oPyEmpty "m" "sp" "um").1 = .undefined) ∧
    (([] : List (String × JsVal)).lookup "text" = some (.str "") →
      (generateContent envPyOnly oPyEmpty "m" "sp" "um").1 = .str "") :=
  C8_python_no_validation envPyOnly oPyEmpty "m" "sp" "um"
    (okJson (.obj [])) [] rfl rfl rfl rfl

/-- C3: if `USE_LOCAL_LLM` is `'true'`, the local attempt is reached (the
python stage, when enabled, failed) and succeeds with value `v`, then
`generateContent` returns exactly `v` (`data.choices[0].message.content`),
and the local request's `model` field is the fixed constant
`meta-llama/Llama-4-Scout-17B-16E-Instruct` for every caller-supplied
`model` argument. -/
theorem C3_local_success (e : Env) (o : Oracle) (m sp um : String) (v : JsVal)
    (hl : useLocal e = true)
    (hpre : usePython e = true → ∃ msg, pythonTry o.python = .error msg)
    (hs : localTry o.localLLM = .ok v) :
    (generateContent e o m sp um).1 = v ∧
    localCall e m sp um ∈ (generateContent e o m sp um).2 ∧
    (localCall e m sp um).body
      = .chatBody "meta-llama/Llama-4-Scout-17B-16E-Instruct"
          [("system", sp), ("user", um)] "0.7" none := by
  have hloc : localStage e o m sp um = (v, [localCall e m sp um]) := by
    unfold localStage
    simp [hl, hs]
  have hbody : (localCall e m sp um).body
      = .chatBody "meta-llama/Llama-4-Scout-17B-16E-Instruct"
          [("system", sp), ("user", um)] "0.7" none := by
    simp [localCall, targetModel, hl]
  by_cases hp : usePython e = true
  · obtain ⟨msg, hmsg⟩ := hpre hp
    have hg : generateContent e o m sp um
        = (v, [pythonCall e sp um, localCall e m sp um]) := by
      unfold generateContent
      simp [hp, hmsg, hl, hloc]
    exact ⟨by rw [hg], by rw [hg]; simp, hbody⟩
  · have hp' : usePython e = false := by simpa using hp
    have hg : generateContent e o m sp um = (v, [localCall e m sp um]) := by
      unfold generateContent
      simp [hp', hloc]
    exact ⟨by rw [hg], by rw [hg]; simp, hbody⟩

/-- Witness for C3: concrete local success with content `"local-text"`. -/
theorem C3_local_success_witness :
    (generateContent envLocalOnly oLocalOk "m" "sp" "um").1 = .str "local-text" ∧
    localCall envLocalOnly "m" "sp" "um" ∈ (generateContent envLocalOnly oLocalOk "m" "sp" "um").2 ∧
    (localCall envLocalOnly "m" "sp" "um").body
      = .chatBody "meta-llama/Llama-4-Scout-17B-16E-Instruct"
          [("system", "sp"), ("user", "um")] "0.7" none :=
  C3_local_success envLocalOnly oLocalOk "m" "sp" "um" (.str "local-text")
    rfl (fun h => absurd h (by decide)) rfl

lemma rapidStage_snd (e : Env) (o : Oracle) (m sp um : String) :
    (rapidStage e o m sp um).2 = [] ∨
    (rapidStage e o m sp um).2 = [rapidCall e sp um] := by
  unfold rapidStage
  by_cases hk : hasRapidKey e = true
  · cases hr : rapidTry o.rapid <;> simp [hk, hr]
  · simp [hk]

lemma localStage_snd (e : Env) (o : Oracle) (m sp um : String) :
    (localStage e o m sp um).2 = [] ∨
    (localStage e o m sp um).2 = [rapidCall e sp um] ∨
    (localStage e o m sp um).2 = [localCall e m sp um] ∨
    (localStage e o m sp um).2 = [localCall e m sp um, rapidCall e sp um] := by
  unfold localStage
  by_cases hl : useLocal e = true
  · cases hs : localTry o.localLLM with
    | ok v => simp [hl, hs]
    | error msg =>
        by_cases hg : (!hasRapidKey e && !usePython e) = true
        · simp [hl, hs, hg]
        · rcases rapidStage_snd e o m sp um with h | h <;> simp [hl, hs, hg, h]
  · rcases rapidStage_snd e o m sp um with h | h <;> simp [hl, h]

lemma generateContent_snd (e : Env) (o : Oracle) (m sp um : String) :
    (generateContent e o m sp um).2 = [] ∨
    (generateContent e o m sp um).2 = [pythonCall e sp um] ∨
    (generateContent e o m sp um).2 = [localCall e m sp um] ∨
    (generateContent e o m sp um).2 = [rapidCall e sp um] ∨
    (generateContent e o m sp um).2 = [pythonCall e sp um, localCall e m sp um] ∨
    (generateContent e o m sp um).2 = [pythonCall e sp um, rapidCall e sp um] ∨
    (generateContent e o m sp um).2 = [localCall e m sp um, rapidCall e sp um] ∨
    (generateContent e o m sp um).2
      = [pythonCall e sp um, localCall e m sp um, rapidCall e sp um] := by
  unfold generateContent
  by_cases hp : usePython e = true
  · cases ho : pythonTry o.python with
    | ok v => simp [hp, ho]
    | error msg =>
        by_cases hg : (!useLocal e && !hasRapidKey e) = true
        · simp [hp, ho, hg]
        · rcases localStage_snd e o m sp um with h | h | h | h <;> simp [hp, ho, hg, h]
  · have hp' : usePython e = false := by simpa using hp
    rcases localStage_snd e o m sp um with h | h | h | h <;> simp [hp', h]

lemma generateContent_local_ok (e : Env) (o : Oracle) (m sp um : String) (v : JsVal)
    (hl : useLocal e = true)
    (hpre : usePython e = true → ∃ msg, pythonTry o.python = .error msg)
    (hs : localTry o.localLLM = .ok v) :
    generateContent e o m sp um = (v, [localCall e m sp um]) ∨
    generateContent e o m sp um = (v, [pythonCall e sp um, localCall e m sp um]) := by
  have hloc : localStage e o m sp um = (v, [localCall e m sp um]) := by
    unfold localStage
    simp [hl, hs]
  by_cases hp : usePython e = true
  · obtain ⟨msg, hmsg⟩ := hpre hp
    right
    unfold generateContent
    simp [hp, hmsg, hl, hloc]
  · left
    have hp' : usePython e = false := by simpa using hp
    unfold generateContent
    simp [hp', hloc]

/-- C7: providers are attempted in the fixed order python, local, RapidAPI
(the trace is a sublist of that three-call list), each call is issued at most
once (the trace has no duplicates), and no further provider is contacted
after one succeeds: a python success leaves the trace at exactly the python
call, and a local success ends the trace at the local call. -/
theorem C7_provider_order (e : Env) (o : Oracle) (m sp um : String) :
    List.Sublist (generateContent e o m sp um).2
      [pythonCall e sp um, localCall e m sp um, rapidCall e sp um] ∧
    ((generateContent e o m sp um).2).Nodup ∧
    (usePython e = true → ∀ v, pythonTry o.python = .ok v →
      (generateContent e o m sp um).2 = [pythonCall e sp um]) ∧
    (useLocal e = true → (usePython e = true → ∃ msg, pythonTry o.python = .error msg) →
      ∀ v, localTry o.localLLM = .ok v →
      (generateContent e o m sp um).2 = [localCall e m sp um] ∨
      (generateContent e o m sp um).2 = [pythonCall e sp um, localCall e m sp um]) := by
  have hpl : pythonCall e sp um ≠ localCall e m sp um := by
    simp [pythonCall, localCall]
  have hpr : pythonCall e sp um ≠ rapidCall e sp um := by
    simp [pythonCall, rapidCall]
  have hlr : localCall e m sp um ≠ rapidCall e sp um := by
    simp [localCall, rapidCall]
  refine ⟨?_, ?_, ?_, ?_⟩
  · rcases generateContent_snd e o m sp um with h|h|h|h|h|h|h|h <;> rw [h]
    · exact List.nil_sublist _
    · exact .cons₂ _ (List.nil_sublist _)
    · exact .cons _ (.cons₂ _ (List.nil_sublist _))
    · exact .cons _ (.cons _ (.cons₂ _ (List.nil_sublist _)))
    · exact .cons₂ _ (.cons₂ _ (List.nil_sublist _))
    · exact .cons₂ _ (.cons _ (.cons₂ _ (List.nil_sublist _)))
    · exact .cons _ (.cons₂ _ (.cons₂ _ (List.nil_sublist _)))
  · rcases generateContent_snd e o m sp um with h|h|h|h|h|h|h|h <;> rw [h] <;>
      simp [List.nodup_cons, hpl, hpr, hlr]
  · intro hp v hv
    rw [generateContent_python_ok e o m sp um v hp hv]
  · intro hl hpre v hv
    rcases generateContent_local_ok e o m sp um v hl hpre hv with h | h
    · left; rw [h]
    · right; rw [h]

/-- Witness for C7: concrete run where the python backend is enabled and
succeeds; the trace is exactly the python call. -/
theorem C7_provider_order_witness :
    List.Sublist (generateContent envPyOnly oPyObj "m" "sp" "um").2
      [pythonCall envPyOnly "sp" "um", localCall envPyOnly "m" "sp" "um",
        rapidCall envPyOnly "sp" "um"] ∧
    ((generateContent envPyOnly oPyObj "m" "sp" "um").2).Nodup ∧
    (generateContent envPyOnly oPyObj "m" "sp" "um").2 = [pythonCall envPyOnly "sp" "um"] := by
  obtain ⟨ha, hb, hc, hd⟩ := C7_provider_order envPyOnly oPyObj "m" "sp" "um"
  exact ⟨ha, hb, hc rfl (.str "py-text") rfl⟩

/-- C10: when neither flag is `'true'`, `targetModel` is the caller-supplied
`model`; the total-failure diagnostic is `configRequired e m`, whose
`ollama run` hint line interpolates that model, so the diagnostic varies
with the `model` argument (two concrete models give different strings). -/
theorem C10_diagnostic_varies_with_model (e : Env) (o : Oracle) (m sp um : String)
    (hl : useLocal e = false) (hp : usePython e = false)
    (hr : hasRapidKey e = true → ∃ msg, rapidTry o.rapid = .error msg) :
    targetModel e m = m ∧
    (generateContent e o m sp um).1 = .str (configRequired e m) ∧
    (∃ a b, configRequired e m = a ++ "ollama run " ++ m ++ b) ∧
    configRequired envNone "model-a" ≠ configRequired envNone "model-b" := by
  have ht : targetModel e m = m := by simp [targetModel, hl, hp]
  have hg : (generateContent e o m sp um).1 = .str (configRequired e m) := by
    unfold generateContent localStage rapidStage
    by_cases hk : hasRapidKey e = true
    · obtain ⟨msg, hmsg⟩ := hr hk
      simp [hp, hl, hk, hmsg, ht]
    · have hk' : hasRapidKey e = false := by simpa using hk
      simp [hp, hl, hk', ht]
  refine ⟨ht, hg, ?_, ?_⟩
  · refine ⟨"# Configuration Required\n\nI cannot generate real output because no AI provider is configured or reachable.\n\n**1. Local LLM (Recommended)**\n- Ensure your local server (e.g., Ollama) is running at `"
        ++ localUrl e ++ "`.\n- Run: `",
      "`\n- Restart this app: `npm run dev`\n\n**2. RapidAPI**\n- Add `RAPIDAPI_KEY` to your `.env.local` file.\n\n**3. Python Backend (Hugging Face)**\n- Ensure `HF_TOKEN` and `USE_PYTHON_BACKEND=true` are in `.env.local`.\n- Ensure the python server is running: `python3 server.py`\n\n**4. Debug Info**\n- Local URL: "
        ++ localUrl e ++ "\n- Use Local: " ++ toString (useLocal e)
        ++ "\n- Use Python: " ++ toString (usePython e)
        ++ "\n- Rapid Key Found: " ++ toString (hasRapidKey e) ++ "\n", ?_⟩
    unfold configRequired
    rw [show ("`.\n- Run: `ollama run " : String) = "`.\n- Run: `" ++ "ollama run " from rfl]
    simp [String.append_assoc]
  · decide

/-- Witness for C10: concrete run with nothing configured. -/
theorem C10_diagnostic_varies_with_model_witness :
    targetModel envNone "m" = "m" ∧
    (generateContent envNone oAllFail "m" "sp" "um").1 = .str (configRequired envNone "m") ∧
    (∃ a b, configRequired envNone "m" = a ++ "ollama run " ++ "m" ++ b) ∧
    configRequired envNone "model-a" ≠ configRequired envNone "model-b" :=
  C10_diagnostic_varies_with_model envNone oAllFail "m" "sp" "um" rfl rfl
    (fun h => absurd h (by decide))

lemma isNonEmptyString_str {s : String} (h : s ≠ "") :
    (JsVal.str s).isNonEmptyString = true := by
  simp [JsVal.isNonEmptyString, h]

lemma rapidStage_fst (e : Env) (o : Oracle) (m sp um : String) :
    (rapidStage e o m sp um).1 = .str (configRequired e (targetModel e m)) ∨
    ∃ v, rapidTry o.rapid = .ok v ∧ (rapidStage e o m sp um).1 = v := by
  unfold rapidStage
  by_cases hk : hasRapidKey e = true
  · cases hr : rapidTry o.rapid with
    | ok v => exact Or.inr ⟨v, rfl, by simp [hk, hr]⟩
    | error msg => exact Or.inl (by simp [hk, hr])
  · exact Or.inl (by simp [hk])

lemma localStage_fst (e : Env) (o : Oracle) (m sp um : String) :
    (localStage e o m sp um).1 = .str (configRequired e (targetModel e m)) ∨
    (localStage e o m sp um).1 = .str (mockResponse (targetModel e m)) ∨
    (∃ v, localTry o.localLLM = .ok v ∧ (localStage e o m sp um).1 = v) ∨
    (∃ v, rapidTry o.rapid = .ok v ∧ (localStage e o m sp um).1 = v) := by
  unfold localStage
  by_cases hl : useLocal e = true
  · cases hs : localTry o.localLLM with
    | ok v => exact Or.inr (Or.inr (Or.inl ⟨v, rfl, by simp [hl, hs]⟩))
    | error msg =>
        by_cases hg : (!hasRapidKey e && !usePython e) = true
        · exact Or.inr (Or.inl (by simp [hl, hs, hg]))
        · rcases rapidStage_fst e o m sp um with h | ⟨v, hv, h⟩
          · exact Or.inl (by simp [hl, hs, hg, h])
          · exact Or.inr (Or.inr (Or.inr ⟨v, hv, by simp [hl, hs, hg, h]⟩))
  · rcases rapidStage_fst e o m sp um with h | ⟨v, hv, h⟩
    · exact Or.inl (by simp [hl, h])
    · exact Or.inr (Or.inr (Or.inr ⟨v, hv, by simp [hl, h]⟩))

/-- Counterexample to C1 as stated: with the python backend enabled and a 2xx
response whose JSON body is `{}` (no `text` field), `generateContent`
resolves to `undefined`, which is not a non-empty string. -/
theorem C1_counterexample :
    (generateContent envPyOnly oPyEmpty "m" "sp" "um").1 = .undefined ∧
    (generateContent envPyOnly oPyEmpty "m" "sp" "um").1.isNonEmptyString = false :=
  ⟨rfl, rfl⟩

/-- C1 (amended): for every flag combination and every HTTP outcome,
`generateContent` resolves (the embedding is total, all throw sites sit
inside `try` blocks), and the result is a non-empty string unless it is the
unvalidated value extracted from a successful provider response — which may
be `undefined`, empty, or a non-string. -/
theorem C1_always_resolves (e : Env) (o : Oracle) (m sp um : String) :
    (generateContent e o m sp um).1.isNonEmptyString = true ∨
    ∃ v, (pythonTry o.python = .ok v ∨ localTry o.localLLM = .ok v ∨
        rapidTry o.rapid = .ok v) ∧
      (generateContent e o m sp um).1 = v := by
  by_cases hp : usePython e = true
  · cases ho : pythonTry o.python with
    | ok v =>
        exact Or.inr ⟨v, Or.inl rfl,
          by rw [generateContent_python_ok e o m sp um v hp ho]⟩
    | error msg =>
        by_cases hg : (!useLocal e && !hasRapidKey e) = true
        · left
          have hres : (generateContent e o m sp um).1 = .str (pythonBackendError msg) := by
            unfold generateContent
            simp [hp, ho, hg]
          rw [hres]
          exact isNonEmptyString_str (pythonBackendError_ne_empty msg)
        · have hres : (generateContent e o m sp um).1 = (localStage e o m sp um).1 := by
            unfold generateContent
            simp [hp, ho, hg]
          rw [hres]
          rcases localStage_fst e o m sp um with h | h | ⟨v, hv, h⟩ | ⟨v, hv, h⟩
          · exact Or.inl (h ▸ isNonEmptyString_str (configRequired_ne_empty e _))
          · exact Or.inl (h ▸ isNonEmptyString_str (mockResponse_ne_empty _))
          · exact Or.inr ⟨v, Or.inr (Or.inl hv), h⟩
          · exact Or.inr ⟨v, Or.inr (Or.inr hv), h⟩
  · have hp' : usePython e = false := by simpa using hp
    have hres : (generateContent e o m sp um).1 = (localStage e o m sp um).1 := by
      unfold generateContent
      simp [hp']
    rw [hres]
    rcases localStage_fst e o m sp um with h | h | ⟨v, hv, h⟩ | ⟨v, hv, h⟩
    · exact Or.inl (h ▸ isNonEmptyString_str (configRequired_ne_empty e _))
    · exact Or.inl (h ▸ isNonEmptyString_str (mockResponse_ne_empty _))
    · exact Or.inr ⟨v, Or.inr (Or.inl hv), h⟩
    · exact Or.inr ⟨v, Or.inr (Or.inr hv), h⟩

end Llm
